import Mathlib

/-!
Shallow embedding of `src/assets/js/inventory-service.js` (class `InventoryService`)
from the miniERP-Hybrid repository, together with proofs about its cart,
pricing, catalog-loading and checkout logic.

Modelling conventions:
* JavaScript numbers are modelled as exact rationals (`ℚ`); quantities and
  parsed integers as `ℤ`.  `Math.round` is `⌊x + 1/2⌋` (ties toward +∞),
  which is the ECMAScript definition.
* JavaScript string-truthiness tests (`if (product.id && product.name)`,
  `if (!this.config.APPS_SCRIPT_URL)`, …) are modelled as emptiness tests:
  an absent string field and the empty string are both falsy, so absent
  string properties are modelled by the default value `""` (and an absent
  `stock` by `none`, since the code distinguishes `stock !== undefined`).
* `fetch`/`await` round trips are modelled by environment values describing
  the outcome of each network interaction; a thrown JS exception is an
  `Except.error` carrying the diagnostic message.
* `parseFloat(v) || 0` / `parseInt(v) || 0` are modelled by prefix numeral
  parsers returning `Option`; `none` (NaN) collapses to `0` exactly as the
  `|| 0` guard does.  Non-finite results (`Infinity`) and hexadecimal
  `parseInt` inputs are outside the catalog's data domain and are not
  modelled.
-/

/-- Product shape produced by the catalog loader (`parseCSV`,
`getFallbackInventory`, the Apps-Script `products` list).  Unassigned string
fields are `""` (falsy, like `undefined` under every test the code makes);
unassigned `stock` is `none` (the code tests `stock !== undefined`).
Unrecognized CSV headers land in `extra` (the `default:` case of the switch,
`product[header.toLowerCase()] = value`). -/
structure Product where
  id : String := ""
  name : String := ""
  price : ℚ := 0
  category : String := ""
  weight : String := ""
  image : String := ""
  stock : Option ℤ := none
  costPrice : ℚ := 0
  vendor : String := ""
  extra : List (String × String) := []
deriving DecidableEq, Repr

/-- A cart line: the product snapshot spread into the line
(`{...product, quantity: 1}` in `addToCart`) plus a quantity. -/
structure CartItem extends Product where
  quantity : ℤ
deriving DecidableEq, Repr

/-- `this.taxRate = 0.11` set in the constructor and never reassigned. -/
def taxRate : ℚ := 11 / 100

/-- ECMAScript `Math.round`: nearest integer, ties toward +∞. -/
def jsRound (q : ℚ) : ℤ := ⌊q + 1 / 2⌋

/-- The four figures computed by `updateOrderSummary` (the DOM writes are the
presentation surface and are not part of the computation). -/
structure OrderSummary where
  subTotal : ℚ
  taxAmount : ℚ
  total : ℚ
  itemCount : ℚ
deriving DecidableEq, Repr

/-- `updateOrderSummary` (inventory-service.js, lines 431-447): the pure
computation behind the order-summary display. -/
def updateOrderSummary (cart : List CartItem) : OrderSummary :=
  let subTotal : ℚ := cart.foldl (fun sum item => sum + item.price * (item.quantity : ℚ)) 0
  let taxAmount : ℚ := (jsRound (subTotal * (11 / 100)) : ℚ)
  let total : ℚ := subTotal + taxAmount
  let itemCount : ℚ := cart.foldl (fun sum item => sum + (item.quantity : ℚ)) 0
  { subTotal := subTotal, taxAmount := taxAmount, total := total, itemCount := itemCount }

/-- One element of `transaction.items` built inside `checkout`. -/
structure TransactionItem where
  sku : String
  name : String
  price : ℚ
  quantity : ℤ
  total : ℚ
deriving DecidableEq, Repr

/-- The `transaction` object built inside `checkout` (lines 462-475). -/
structure Transaction where
  timestamp : String
  items : List TransactionItem
  subtotal : ℚ
  tax : ℚ
  total : ℚ
  status : String
deriving DecidableEq, Repr

/-- The transaction record built by `checkout`: each of `subtotal`, `tax` and
`total` re-derives the cart sum inline, exactly as the source does with three
separate `cart.reduce(...)` expressions. -/
def buildTransaction (cart : List CartItem) (now : String) : Transaction :=
  { timestamp := now
    items := cart.map fun item =>
      { sku := item.id, name := item.name, price := item.price,
        quantity := item.quantity, total := item.price * (item.quantity : ℚ) }
    subtotal := cart.foldl (fun sum item => sum + item.price * (item.quantity : ℚ)) 0
    tax := (jsRound ((cart.foldl (fun sum item => sum + item.price * (item.quantity : ℚ)) 0) * taxRate) : ℚ)
    total := cart.foldl (fun sum item => sum + item.price * (item.quantity : ℚ)) 0
      + (jsRound ((cart.foldl (fun sum item => sum + item.price * (item.quantity : ℚ)) 0) * taxRate) : ℚ)
    status := "pending" }

/-- Modelled from the spec: "tax = round-half-up(subtotal × taxRate)" —
round to the nearest integer with halves rounded up. -/
def roundHalfUp (q : ℚ) : ℤ := ⌊q + 1 / 2⌋

/-- Concrete cart of the spec scenario: one line with unit price 165000 and
quantity 1 (the fallback product `semen-padang`). -/
def cartScenario : List CartItem :=
  [{ id := "semen-padang", name := "Semen Padang", price := 165000,
     category := "semen", weight := "55Kg / 1 Karung",
     image := "Asset/assets/img/products/semen-padang.png",
     stock := some 50, quantity := 1 }]

/-- The mutation `existingItem.quantity += 1` (`addToCart`) or
`cartItem.quantity += 1` (`updateQuantity`, action `increase`): JS `find`
returns the first matching element and the code mutates it in place, so the
first line whose id equals `sku` has its quantity incremented. -/
def bumpFirst : List CartItem → String → List CartItem
  | [], _ => []
  | it :: rest, sku =>
    if it.id == sku then { it with quantity := it.quantity + 1 } :: rest
    else it :: bumpFirst rest sku

/-- The mutation `cartItem.quantity -= 1` (`updateQuantity`, action
`decrease`): the first line whose id equals `sku` has its quantity
decremented. -/
def decFirst : List CartItem → String → List CartItem
  | [], _ => []
  | it :: rest, sku =>
    if it.id == sku then { it with quantity := it.quantity - 1 } :: rest
    else it :: decFirst rest sku

/-- `addToCart` (inventory-service.js, lines 313-333).  Looks the sku up in
the current inventory; on a miss it logs and returns `false` leaving the cart
alone.  Otherwise it bumps an existing line or pushes `{...product,
quantity: 1}`.  Returns the new cart together with the boolean result. -/
def addToCart (inventory : List Product) (cart : List CartItem) (sku : String) :
    List CartItem × Bool :=
  match inventory.find? (fun p => p.id == sku) with
  | none => (cart, false)
  | some product =>
    match cart.find? (fun item => item.id == sku) with
    | some _ => (bumpFirst cart sku, true)
    | none => (cart ++ [{ toProduct := product, quantity := 1 }], true)

/-- `updateQuantity` (inventory-service.js, lines 412-426).  No-op when the
sku is not in the cart; `increase` bumps the found line; `decrease`
decrements it and, when the decremented quantity is ≤ 0, removes every line
with that sku (`this.cart.filter(item => item.id !== sku)`); any other
action string changes nothing. -/
def updateQuantity (cart : List CartItem) (sku action : String) : List CartItem :=
  match cart.find? (fun item => item.id == sku) with
  | none => cart
  | some cartItem =>
    if action = "increase" then bumpFirst cart sku
    else if action = "decrease" then
      let updated := decFirst cart sku
      if cartItem.quantity - 1 ≤ 0 then updated.filter (fun item => item.id != sku)
      else updated
    else cart

/-- A user intent mutating the cart: an `addToCart` click (against whatever
inventory is currently rendered) or an `updateQuantity` button press. -/
inductive CartOp where
  | add (inventory : List Product) (sku : String)
  | adjust (sku : String) (action : String)
deriving DecidableEq, Repr

/-- Apply one cart operation to the cart state. -/
def applyOp (cart : List CartItem) : CartOp → List CartItem
  | .add inventory sku => (addToCart inventory cart sku).1
  | .adjust sku action => updateQuantity cart sku action

/-- Run a sequence of cart operations starting from the empty cart
(`this.cart = []` in the constructor). -/
def runOps (ops : List CartOp) : List CartItem := ops.foldl applyOp []

/-- Concrete one-product inventory used by witnesses. -/
def invDemo : List Product :=
  [{ id := "p1", name := "Demo", price := 10, category := "misc" }]

/-- Concrete operation sequence: one add of `p1` against `invDemo`. -/
def opsDemo : List CartOp := [CartOp.add invDemo "p1"]

/-- Cart-store invariant: every line has quantity ≥ 1 and product ids are
pairwise distinct (at most one line per product id). -/
def goodCart (cart : List CartItem) : Prop :=
  (∀ it ∈ cart, 1 ≤ it.quantity) ∧ (cart.map (fun it => it.id)).Nodup

/-- The demo product backing `invDemo`. -/
def prodDemo : Product :=
  { id := "p1", name := "Demo", price := 10, category := "misc" }

/-- The cart line produced by adding `p1` from `invDemo` to the empty cart. -/
def itemDemo : CartItem :=
  { id := "p1", name := "Demo", price := 10, category := "misc", quantity := 1 }

/-- JS whitespace for `trim` on this data domain (ASCII). -/
def isJSSpace (c : Char) : Bool :=
  c == ' ' || c == '\t' || c == '\n' || c == '\r' || c == '\x0b' || c == '\x0c'

/-- `String.prototype.split` with a one-character separator, on char lists:
`splitChar c l` never returns `[]`, and splitting the empty list yields
`[[]]`, exactly as `\x27\x27.split(c)` yields `[\x27\x27]` in JS. -/
def splitChar (c : Char) : List Char → List (List Char)
  | [] => [[]]
  | x :: xs =>
    let r := splitChar c xs
    if x == c then [] :: r
    else
      match r with
      | [] => [[x]]
      | y :: ys => (x :: y) :: ys

/-- Strip leading and trailing JS whitespace from a char list. -/
def trimChars (l : List Char) : List Char :=
  ((l.dropWhile isJSSpace).reverse.dropWhile isJSSpace).reverse

/-- `String.prototype.split` with a one-character separator.  (Lean's own
`String.splitOn` is not kernel-executable, so the JS operation is embedded
as a structural recursion over the character list.) -/
def jsSplit (c : Char) (s : String) : List String :=
  (splitChar c s.toList).map List.asString

/-- `String.prototype.trim` (ASCII whitespace). -/
def jsTrim (s : String) : String :=
  (trimChars s.toList).asString

/-- `String.prototype.toLowerCase` (ASCII data domain). -/
def jsLower (s : String) : String :=
  (s.toList.map Char.toLower).asString

/-- Value of a list of decimal digit characters. -/
def digitsVal (ds : List Char) : ℕ :=
  ds.foldl (fun a c => a * 10 + (c.toNat - 48)) 0

/-- Value of the fractional digits after the decimal point. -/
def fracVal (ds : List Char) : ℚ :=
  (digitsVal ds : ℚ) / ((10 : ℚ) ^ ds.length)

/-- Exponent part of a JS float literal (after `e`/`E`): an incomplete
exponent is ignored, as `parseFloat` backtracks over it. -/
def expoVal (r : List Char) : ℤ :=
  let esgn : ℤ := if r.headD ' ' == '-' then -1 else 1
  let r1 := if r.headD ' ' == '-' || r.headD ' ' == '+' then r.drop 1 else r
  let eds := r1.takeWhile Char.isDigit
  if eds.isEmpty then 0 else esgn * (digitsVal eds : ℤ)

/-- ECMAScript `parseFloat`: skip leading whitespace, optional sign, digits
with optional fraction and exponent, longest valid prefix; `none` models NaN
(no digits at all).  Non-finite results are outside the catalog data domain
and are not modelled. -/
def jsParseFloat (s : String) : Option ℚ :=
  let cs := s.toList.dropWhile (fun c => c == ' ' || c == '\t' || c == '\n' || c == '\r')
  let sgn : ℚ := if cs.headD ' ' == '-' then -1 else 1
  let cs1 := if cs.headD ' ' == '-' || cs.headD ' ' == '+' then cs.drop 1 else cs
  let intPart := cs1.takeWhile Char.isDigit
  let rest1 := cs1.dropWhile Char.isDigit
  let fracPart :=
    match rest1 with
    | '.' :: r => r.takeWhile Char.isDigit
    | _ => []
  let rest2 :=
    match rest1 with
    | '.' :: r => r.dropWhile Char.isDigit
    | _ => rest1
  if intPart.isEmpty && fracPart.isEmpty then none
  else
    let mant : ℚ := sgn * ((digitsVal intPart : ℚ) + fracVal fracPart)
    let expPart : ℤ :=
      match rest2 with
      | 'e' :: r => expoVal r
      | 'E' :: r => expoVal r
      | _ => 0
    some (mant * (10 : ℚ) ^ expPart)

/-- ECMAScript `parseInt` with no radix argument on catalog data: skip
leading whitespace, optional sign, longest decimal digit prefix; `none`
models NaN.  (The `0x` hexadecimal form is outside the catalog data
domain and is not modelled.) -/
def jsParseInt (s : String) : Option ℤ :=
  let cs := s.toList.dropWhile (fun c => c == ' ' || c == '\t' || c == '\n' || c == '\r')
  let sgn : ℤ := if cs.headD ' ' == '-' then -1 else 1
  let cs1 := if cs.headD ' ' == '-' || cs.headD ' ' == '+' then cs.drop 1 else cs
  let ds := cs1.takeWhile Char.isDigit
  if ds.isEmpty then none else some (sgn * (digitsVal ds : ℤ))

/-- `parseFloat(value) || 0`: NaN (and 0 itself) collapse to 0. -/
def floatOr0 (o : Option ℚ) : ℚ :=
  match o with
  | some q => q
  | none => 0

/-- `parseInt(value) || 0`: NaN (and 0 itself) collapse to 0. -/
def intOr0 (o : Option ℤ) : ℤ :=
  match o with
  | some n => n
  | none => 0

/-- JS property assignment `product[key] = value` for the open-ended extra
attributes: overwrite an existing key, else append. -/
def setExtra : List (String × String) → String → String → List (String × String)
  | [], k, v => [(k, v)]
  | (k0, v0) :: rest, k, v =>
    if k0 == k then (k, v) :: rest else (k0, v0) :: setExtra rest k v

/-- One arm of the `switch (header.toLowerCase())` in `parseCSV`
(inventory-service.js, lines 114-157). -/
def applyHeader (product : Product) (header value : String) : Product :=
  let h := jsLower header
  if h == "sku" || h == "id" then { product with id := value }
  else if h == "nama_item" || h == "name" || h == "product_name" then
    { product with name := value }
  else if h == "harga_jual" || h == "price" then
    { product with price := floatOr0 (jsParseFloat value) }
  else if h == "kategori" || h == "category" then { product with category := value }
  else if h == "satuan" || h == "weight" || h == "unit" then { product with weight := value }
  else if h == "image" || h == "image_url" then { product with image := value }
  else if h == "jumlah" || h == "stock" || h == "quantity" then
    { product with stock := some (intOr0 (jsParseInt value)) }
  else if h == "harga_beli" then { product with costPrice := floatOr0 (jsParseFloat value) }
  else if h == "nama_vendor" then { product with vendor := value }
  else { product with extra := setExtra product.extra h value }

/-- `headers.forEach((header, index) => ...)` over one data row:
`values[index] || \x27\x27` is an empty string when the row is short. -/
def parseRow (headers values : List String) : Product :=
  headers.enum.foldl
    (fun product hi => applyHeader product hi.2 (values.getD hi.1 ""))
    {}

/-- Default image path for a product parsed without one
(`Asset/assets/img/products/<id>.png`). -/
def defaultImage (product : Product) : Product :=
  if product.image = "" then
    { product with image := "Asset/assets/img/products/" ++ product.id ++ ".png" }
  else product

/-- `parseCSV` (inventory-service.js, lines 104-170): split on newlines,
header row first, trim every cell, map headers through the synonym switch,
keep a row only when both id and name are non-empty (JS truthiness of
`product.id && product.name`). -/
def parseCSV (csvText : String) : List Product :=
  let lines := jsSplit '\n' csvText
  let headers := (jsSplit ',' (lines.headD "")).map jsTrim
  (lines.drop 1).filterMap fun line =>
    if jsTrim line ≠ "" then
      let values := (jsSplit ',' line).map jsTrim
      let product := parseRow headers values
      if product.id ≠ "" ∧ product.name ≠ "" then some (defaultImage product)
      else none
    else none

/-- Sample flat-file input: well-formed rows `A1`/`A3`, and a malformed row
`A2` with an identifier but an empty name. -/
def csvSample : String := "id,name,price\nA1,Widget,10\nA2,,20\nA3,Gadget,30"

/-- Expected parse of the first sample row. -/
def prodWidget : Product :=
  { id := "A1", name := "Widget", price := 10,
    image := "Asset/assets/img/products/A1.png" }

/-- Expected parse of the last sample row. -/
def prodGadget : Product :=
  { id := "A3", name := "Gadget", price := 30,
    image := "Asset/assets/img/products/A3.png" }

/-- The configuration object (`config.json`, or the all-empty fallback the
constructor installs when loading fails). -/
structure Config where
  INVENTORY_SHEET_ID : String := ""
  FINANCE_SHEET_ID : String := ""
  APPS_SCRIPT_URL : String := ""
  SECRET_KEY : String := ""
deriving DecidableEq, Repr

/-- Outcomes of the three catalog network/file reads `getInventory` can
attempt.  `googleSheets`: the structured Apps-Script call — `error` models a
thrown fetch error or the non-2xx `throw`, `ok` carries the parsed body's
optional `products` list.  `remoteCSV` / `localCSV`: the text of the two
flat-file sources, or the thrown error. -/
structure FetchEnv where
  googleSheets : Except String (Option (List Product))
  remoteCSV : Except String String
  localCSV : Except String String

/-- `fetchFromGoogleSheets` (lines 59-76): propagates a fetch/HTTP error,
otherwise returns `data.products || []`. -/
def fetchFromGoogleSheets (env : FetchEnv) : Except String (List Product) :=
  match env.googleSheets with
  | Except.error e => Except.error e
  | Except.ok data => Except.ok (data.getD [])

/-- `getFallbackInventory` (lines 175-268): the built-in static list. -/
def getFallbackInventory : List Product :=
  [{ id := "semen-padang", name := "Semen Padang", price := 165000, category := "semen",
     weight := "55Kg / 1 Karung", image := "Asset/assets/img/products/semen-padang.png",
     stock := some 50 },
   { id := "semen-tiga-roda", name := "Semen Tiga Roda", price := 135000, category := "semen",
     weight := "55Kg / 1 Karung", image := "Asset/assets/img/products/semen-tiga-roda.png",
     stock := some 30 },
   { id := "semen-baturaja", name := "Semen Baturaja", price := 115000, category := "semen",
     weight := "55Kg / 1 Karung", image := "Asset/assets/img/products/semen-baturaja.png",
     stock := some 25 },
   { id := "semen-rajawali", name := "Semen Rajawali", price := 105000, category := "semen",
     weight := "55Kg / 1 Karung", image := "Asset/assets/img/products/semen-rajawali.png",
     stock := some 40 },
   { id := "semen-gresik", name := "Semen Gresik", price := 125000, category := "semen",
     weight := "55Kg / 1 Karung", image := "Asset/assets/img/products/semen-gresik.png",
     stock := some 35 },
   { id := "semen-holcim", name := "Semen Holcim", price := 145000, category := "semen",
     weight := "55Kg / 1 Karung", image := "Asset/assets/img/products/semen-holcim.png",
     stock := some 20 },
   { id := "semen-indocement", name := "Semen Indocement", price := 155000, category := "semen",
     weight := "55Kg / 1 Karung", image := "Asset/assets/img/products/semen-indocement.png",
     stock := some 15 },
   { id := "batu-bata-merah", name := "Batu Bata Merah", price := 2500, category := "batu-bata",
     weight := "1 Pcs", image := "Asset/assets/img/products/batu-bata-merah.png",
     stock := some 1000 },
   { id := "genteng-beton", name := "Genteng Beton", price := 15000, category := "genteng",
     weight := "1 Pcs", image := "Asset/assets/img/products/genteng-beton.png",
     stock := some 200 },
   { id := "pintu-kayu", name := "Pintu Kayu", price := 450000, category := "pintu",
     weight := "1 Unit", image := "Asset/assets/img/products/pintu-kayu.png",
     stock := some 10 }]

/-- `fetchFromCSV` (lines 81-99): try the published Google-Sheets CSV, on
failure the local file, on failure the static fallback; never throws. -/
def fetchFromCSV (env : FetchEnv) : Except String (List Product) :=
  match env.remoteCSV with
  | Except.ok csvText => Except.ok (parseCSV csvText)
  | Except.error _ =>
    match env.localCSV with
    | Except.ok csvText => Except.ok (parseCSV csvText)
    | Except.error _ => Except.ok getFallbackInventory

/-- The guard `if (this.config.INVENTORY_SHEET_ID && this.config.APPS_SCRIPT_URL)`
(line 43): both strings truthy, i.e. non-empty. -/
def usesSheets (cfg : Config) : Bool :=
  cfg.INVENTORY_SHEET_ID != "" && cfg.APPS_SCRIPT_URL != ""

/-- `getInventory` (lines 40-54): pick the structured source when configured,
else the flat-file chain; any error from the chosen branch is caught and
answered with the static fallback. -/
def getInventory (cfg : Config) (env : FetchEnv) : Except String (List Product) :=
  match (if usesSheets cfg then fetchFromGoogleSheets env else fetchFromCSV env) with
  | Except.ok l => Except.ok l
  | Except.error _ => Except.ok getFallbackInventory

/-- A configuration with the structured API configured. -/
def cfgRemote : Config :=
  { INVENTORY_SHEET_ID := "sheet-1", APPS_SCRIPT_URL := "https://script.example/app" }

/-- A one-row remote flat file. -/
def csvRemote : String := "id,name,price\nP1,Widget,5"

/-- Environment in which the structured API fails while both flat-file
sources are reachable. -/
def envApiDown : FetchEnv :=
  { googleSheets := Except.error "HTTP error! status: 500",
    remoteCSV := Except.ok csvRemote,
    localCSV := Except.ok csvRemote }

/-- The parsed JSON body of the submission response: the boolean `success`
flag and the optional `error` message field. -/
structure RemoteBody where
  success : Bool := false
  error : Option String := none
deriving DecidableEq, Repr

/-- Outcome of the single `fetch` round trip inside `checkout`:
`netError` models a rejected fetch (thrown before any response exists);
`httpResponse` carries `response.ok`, `response.status`, and the outcome of
`response.json()` (which can itself throw on malformed JSON). -/
inductive SubmitOutcome where
  | netError (msg : String)
  | httpResponse (ok : Bool) (status : ℕ) (body : Except String RemoteBody)
deriving Repr

/-- What a `checkout` call leaves behind: the returned/thrown result, the
cart store afterwards (`this.cart`), and the transaction sent over the
network (`none` when no network attempt was made). -/
structure CheckoutResult where
  result : Except String RemoteBody
  newCart : List CartItem
  sent : Option Transaction
deriving Repr

/-- `result.error || \x27Checkout failed\x27`: JS falsy-or on an optional
string — an absent or empty message falls back to the default. -/
def jsOrString (o : Option String) (d : String) : String :=
  match o with
  | some s => if s = "" then d else s
  | none => d

/-- `checkout` (inventory-service.js, lines 453-510).  Throws on an empty
cart, then on a missing endpoint URL, both before the fetch; builds the
transaction record; one round trip; a network error, a non-2xx status, a
body-parse error or `success: false` each re-throw with the best available
message and leave `this.cart` untouched; on `success: true` the code sets
`this.cart = []` itself and returns the parsed body. -/
def checkout (cfg : Config) (cart : List CartItem) (env : SubmitOutcome) (now : String) :
    CheckoutResult :=
  if cart.length = 0 then
    { result := Except.error "Cart is empty", newCart := cart, sent := none }
  else if cfg.APPS_SCRIPT_URL = "" then
    { result := Except.error "Apps Script URL not configured", newCart := cart, sent := none }
  else
    let transaction := buildTransaction cart now
    match env with
    | SubmitOutcome.netError msg =>
      { result := Except.error msg, newCart := cart, sent := some transaction }
    | SubmitOutcome.httpResponse ok status body =>
      if ¬ ok then
        { result := Except.error ("HTTP error! status: " ++ toString status),
          newCart := cart, sent := some transaction }
      else
        match body with
        | Except.error msg =>
          { result := Except.error msg, newCart := cart, sent := some transaction }
        | Except.ok result =>
          if result.success then
            { result := Except.ok result, newCart := [], sent := some transaction }
          else
            { result := Except.error (jsOrString result.error "Checkout failed"),
              newCart := cart, sent := some transaction }

/-- A configuration carrying only the endpoint URL. -/
def cfgSubmit : Config := { APPS_SCRIPT_URL := "https://script.example/app" }

/-- A successful submission response. -/
def envSuccess : SubmitOutcome :=
  SubmitOutcome.httpResponse true 200 (Except.ok { success := true })

/-- Does the first char list start with the second? -/
def leadsWith : List Char → List Char → Bool
  | _, [] => true
  | [], _ :: _ => false
  | a :: as, b :: bs => a == b && leadsWith as bs

/-- Is `needle` a contiguous sublist of the second list? -/
def hasSub (needle : List Char) : List Char → Bool
  | [] => needle.isEmpty
  | c :: rest => leadsWith (c :: rest) needle || hasSub needle rest

/-- `String.prototype.includes`. -/
def jsIncludes (s needle : String) : Bool :=
  hasSub needle.toList s.toList

/-- The two instance fields read and written by the rendering/search path:
`this.inventory` (the currently rendered product list) and `this.cart`. -/
structure ServiceState where
  inventory : List Product
  cart : List CartItem
deriving Repr

/-- `renderProducts` (lines 274-307): stores its argument as the new
`this.inventory` (the DOM writes are presentation only). -/
def renderProducts (st : ServiceState) (productList : List Product) : ServiceState :=
  { st with inventory := productList }

/-- `searchProducts` (lines 536-542): filter `this.inventory` by
case-insensitive name/category containment, then render (which replaces
`this.inventory` with the filtered list). -/
def searchProducts (st : ServiceState) (query : String) : ServiceState :=
  renderProducts st (st.inventory.filter (fun product =>
    jsIncludes (jsLower product.name) (jsLower query)
    || jsIncludes (jsLower product.category) (jsLower query)))

/-- `filterByCategory` (lines 525-530): filter `this.inventory` by exact
category match, then render. -/
def filterByCategory (st : ServiceState) (category : String) : ServiceState :=
  renderProducts st (st.inventory.filter (fun product => product.category == category))

/-- Two distinguishable catalog products. -/
def prodApple : Product := { id := "a", name := "Apple", price := 3, category := "fruit" }

/-- Second catalog product. -/
def prodBanana : Product := { id := "b", name := "Banana", price := 4, category := "fruit" }

/-- State after loading a two-product catalog, with a non-empty cart. -/
def stAB : ServiceState :=
  { inventory := [prodApple, prodBanana], cart := [itemDemo] }

theorem foldl_add_eq_sum (f : CartItem → ℚ) (cart : List CartItem) (a : ℚ) :
    cart.foldl (fun sum item => sum + f item) a = a + (cart.map f).sum := by
  induction cart generalizing a with
  | nil => simp
  | cons x xs ih => simp [List.foldl_cons, ih, add_assoc]

theorem jsRound_natCast_eleven (n : ℕ) :
    jsRound ((n : ℚ) * (11 / 100)) = ((11 * n + 50) / 100 : ℕ) := by
  unfold jsRound
  have h : (n : ℚ) * (11 / 100) + 1 / 2 = ((11 * n + 50 : ℕ) : ℚ) / ((100 : ℕ) : ℚ) := by
    push_cast
    ring
  rw [h, Rat.floor_natCast_div_natCast]
  exact (Int.ofNat_div _ _).symm

theorem scenario_summary_eval :
    updateOrderSummary cartScenario
      = { subTotal := 165000, taxAmount := 18150, total := 183150, itemCount := 1 } := by
  have harg : ((0 : ℚ) + 165000 * ((1 : ℤ) : ℚ)) * (11 / 100) = ((165000 : ℕ) : ℚ) * (11 / 100) := by
    norm_num
  have hj : jsRound (((0 : ℚ) + 165000 * ((1 : ℤ) : ℚ)) * (11 / 100)) = 18150 := by
    rw [harg, jsRound_natCast_eleven]
    norm_num
  simp only [updateOrderSummary, cartScenario, List.foldl_cons, List.foldl_nil]
  rw [OrderSummary.mk.injEq]
  refine ⟨by norm_num, ?_, ?_, by norm_num⟩
  · rw [hj]
    norm_num
  · rw [hj]
    norm_num

theorem intCart_sums (cart : List CartItem)
    (h : ∀ it ∈ cart, (∃ n : ℕ, it.price = (n : ℚ)) ∧ ∃ m : ℕ, 0 < m ∧ it.quantity = (m : ℤ)) :
    ∃ s c : ℕ, (cart.map (fun it => it.price * (it.quantity : ℚ))).sum = (s : ℚ)
      ∧ (cart.map (fun it => (it.quantity : ℚ))).sum = (c : ℚ) := by
  induction cart with
  | nil => exact ⟨0, 0, by simp, by simp⟩
  | cons x xs ih =>
    obtain ⟨⟨n, hn⟩, m, _, hm⟩ := h x (List.mem_cons_self x xs)
    obtain ⟨s, c, hs, hc⟩ := ih (fun it hit => h it (List.mem_cons_of_mem x hit))
    refine ⟨n * m + s, m + c, ?_, ?_⟩
    · simp only [List.map_cons, List.sum_cons, hn, hm, hs]
      push_cast
      ring
    · simp only [List.map_cons, List.sum_cons, hm, hc]
      push_cast
      ring

/-- C1: for carts whose lines carry non-negative integer unit prices and
positive integer quantities, `updateOrderSummary` computes
subtotal = Σ(price × quantity), tax = round-half-up(subtotal × 0.11),
total = subtotal + tax and itemCount = Σ quantity, all exactly in integer
arithmetic; in particular the one-line cart with price 165000 and quantity 1
yields subtotal 165000, tax 18150, total 183150. -/
theorem updateOrderSummary_integer_arithmetic (cart : List CartItem)
    (h : ∀ it ∈ cart, (∃ n : ℕ, it.price = (n : ℚ)) ∧ ∃ m : ℕ, 0 < m ∧ it.quantity = (m : ℤ)) :
    (∃ s c : ℕ,
      (updateOrderSummary cart).subTotal = (cart.map (fun it => it.price * (it.quantity : ℚ))).sum
      ∧ (updateOrderSummary cart).subTotal = (s : ℚ)
      ∧ (updateOrderSummary cart).taxAmount
          = (roundHalfUp ((updateOrderSummary cart).subTotal * (11 / 100)) : ℚ)
      ∧ (updateOrderSummary cart).taxAmount = (((11 * s + 50) / 100 : ℕ) : ℚ)
      ∧ (updateOrderSummary cart).total = ((s + (11 * s + 50) / 100 : ℕ) : ℚ)
      ∧ (updateOrderSummary cart).itemCount = (cart.map (fun it => (it.quantity : ℚ))).sum
      ∧ (updateOrderSummary cart).itemCount = (c : ℚ))
    ∧ updateOrderSummary cartScenario
        = { subTotal := 165000, taxAmount := 18150, total := 183150, itemCount := 1 } := by
  refine ⟨?_, scenario_summary_eval⟩
  obtain ⟨s, c, hs, hc⟩ := intCart_sums cart h
  have hsub : (updateOrderSummary cart).subTotal
      = (cart.map (fun it => it.price * (it.quantity : ℚ))).sum := by
    simp [updateOrderSummary, foldl_add_eq_sum]
  have hcount : (updateOrderSummary cart).itemCount
      = (cart.map (fun it => (it.quantity : ℚ))).sum := by
    simp [updateOrderSummary, foldl_add_eq_sum]
  have htax : (updateOrderSummary cart).taxAmount
      = (jsRound ((updateOrderSummary cart).subTotal * (11 / 100)) : ℚ) := rfl
  have htaxnat : (updateOrderSummary cart).taxAmount = (((11 * s + 50) / 100 : ℕ) : ℚ) := by
    rw [htax, hsub, hs, jsRound_natCast_eleven]
    norm_cast
  refine ⟨s, c, hsub, by rw [hsub, hs], htax, htaxnat, ?_, hcount, by rw [hcount, hc]⟩
  have htot : (updateOrderSummary cart).total
      = (updateOrderSummary cart).subTotal + (updateOrderSummary cart).taxAmount := rfl
  rw [htot, hsub, hs, htaxnat]
  push_cast
  ring

/-- Witness for C1: the scenario cart satisfies the integrality hypothesis and
the computed summary is exactly (165000, 18150, 183150, 1). -/
theorem updateOrderSummary_integer_arithmetic_witness :
    updateOrderSummary cartScenario
      = { subTotal := 165000, taxAmount := 18150, total := 183150, itemCount := 1 } := by
  have hyp : ∀ it ∈ cartScenario,
      (∃ n : ℕ, it.price = (n : ℚ)) ∧ ∃ m : ℕ, 0 < m ∧ it.quantity = (m : ℤ) := by
    intro it hit
    simp only [cartScenario, List.mem_singleton] at hit
    subst hit
    exact ⟨⟨165000, by norm_num⟩, 1, by norm_num, by norm_num⟩
  exact (updateOrderSummary_integer_arithmetic cartScenario hyp).2

/-- C2: the display computation (`updateOrderSummary`) and the submission
record built by `checkout` (`buildTransaction`) agree on subtotal, tax and
total for every cart. -/
theorem display_and_submission_totals_agree (cart : List CartItem) (now : String) :
    (updateOrderSummary cart).subTotal = (buildTransaction cart now).subtotal
    ∧ (updateOrderSummary cart).taxAmount = (buildTransaction cart now).tax
    ∧ (updateOrderSummary cart).total = (buildTransaction cart now).total :=
  ⟨rfl, rfl, rfl⟩

theorem bumpFirst_id_map (cart : List CartItem) (sku : String) :
    (bumpFirst cart sku).map (fun it => it.id) = cart.map (fun it => it.id) := by
  induction cart with
  | nil => rfl
  | cons x xs ih =>
    by_cases hx : (x.id == sku) = true
    · simp [bumpFirst, hx]
    · simp [bumpFirst, hx, ih]

theorem decFirst_id_map (cart : List CartItem) (sku : String) :
    (decFirst cart sku).map (fun it => it.id) = cart.map (fun it => it.id) := by
  induction cart with
  | nil => rfl
  | cons x xs ih =>
    by_cases hx : (x.id == sku) = true
    · simp [decFirst, hx]
    · simp [decFirst, hx, ih]

theorem mem_bumpFirst (cart : List CartItem) (sku : String) (x : CartItem)
    (hx : x ∈ bumpFirst cart sku) :
    x ∈ cart ∨ ∃ it ∈ cart, x = { it with quantity := it.quantity + 1 } := by
  induction cart with
  | nil => cases hx
  | cons y ys ih =>
    by_cases hy : (y.id == sku) = true
    · simp only [bumpFirst, hy, if_true] at hx
      rcases List.mem_cons.1 hx with rfl | hmem
      · exact Or.inr ⟨y, List.mem_cons_self y ys, rfl⟩
      · exact Or.inl (List.mem_cons_of_mem y hmem)
    · simp only [bumpFirst, hy] at hx
      rcases List.mem_cons.1 hx with rfl | hmem
      · exact Or.inl (List.mem_cons_self x ys)
      · rcases ih hmem with h | ⟨it, hit, he⟩
        · exact Or.inl (List.mem_cons_of_mem y h)
        · exact Or.inr ⟨it, List.mem_cons_of_mem y hit, he⟩

theorem find?_split (p : CartItem → Bool) (cart : List CartItem) (it : CartItem)
    (h : cart.find? p = some it) :
    ∃ l1 l2, cart = l1 ++ it :: l2 ∧ ∀ x ∈ l1, p x = false := by
  induction cart with
  | nil => simp [List.find?] at h
  | cons x xs ih =>
    by_cases hx : p x = true
    · rw [List.find?_cons_of_pos xs hx, Option.some.injEq] at h
      exact ⟨[], xs, by rw [h]; rfl, by simp⟩
    · rw [List.find?_cons_of_neg xs (by simpa using hx)] at h
      obtain ⟨l1, l2, he, hl1⟩ := ih h
      refine ⟨x :: l1, l2, by rw [he]; rfl, ?_⟩
      intro y hy
      rcases List.mem_cons.1 hy with rfl | hy2
      · simpa using hx
      · exact hl1 y hy2

theorem find?_of_split (p : CartItem → Bool) (l1 : List CartItem) (it : CartItem)
    (l2 : List CartItem) (hl1 : ∀ x ∈ l1, p x = false) (hit : p it = true) :
    (l1 ++ it :: l2).find? p = some it := by
  induction l1 with
  | nil => simpa using List.find?_cons_of_pos l2 hit
  | cons y ys ih =>
    have hy : p y = false := hl1 y (List.mem_cons_self y ys)
    rw [List.cons_append, List.find?_cons_of_neg _ (by simp [hy])]
    exact ih (fun x hx => hl1 x (List.mem_cons_of_mem y hx))

theorem bumpFirst_append (l1 : List CartItem) (it : CartItem) (l2 : List CartItem)
    (sku : String) (hl1 : ∀ x ∈ l1, (x.id == sku) = false) (hit : (it.id == sku) = true) :
    bumpFirst (l1 ++ it :: l2) sku = l1 ++ { it with quantity := it.quantity + 1 } :: l2 := by
  induction l1 with
  | nil => simp [bumpFirst, hit]
  | cons y ys ih =>
    have hy : (y.id == sku) = false := hl1 y (List.mem_cons_self y ys)
    simp only [List.cons_append, bumpFirst, hy, Bool.false_eq_true, if_false, List.append_eq]
    rw [ih (fun x hx => hl1 x (List.mem_cons_of_mem y hx))]

theorem decFirst_append (l1 : List CartItem) (it : CartItem) (l2 : List CartItem)
    (sku : String) (hl1 : ∀ x ∈ l1, (x.id == sku) = false) (hit : (it.id == sku) = true) :
    decFirst (l1 ++ it :: l2) sku = l1 ++ { it with quantity := it.quantity - 1 } :: l2 := by
  induction l1 with
  | nil => simp [decFirst, hit]
  | cons y ys ih =>
    have hy : (y.id == sku) = false := hl1 y (List.mem_cons_self y ys)
    simp only [List.cons_append, decFirst, hy, Bool.false_eq_true, if_false, List.append_eq]
    rw [ih (fun x hx => hl1 x (List.mem_cons_of_mem y hx))]

theorem goodCart_bumpFirst (cart : List CartItem) (sku : String) (h : goodCart cart) :
    goodCart (bumpFirst cart sku) := by
  constructor
  · intro x hx
    rcases mem_bumpFirst cart sku x hx with hmem | ⟨it, hit, rfl⟩
    · exact h.1 x hmem
    · have := h.1 it hit
      simp only []
      omega
  · rw [bumpFirst_id_map]
    exact h.2

theorem goodCart_addToCart (inv : List Product) (cart : List CartItem) (sku : String)
    (h : goodCart cart) : goodCart (addToCart inv cart sku).1 := by
  unfold addToCart
  cases hinv : inv.find? (fun p => p.id == sku) with
  | none => exact h
  | some product =>
    cases hcf : cart.find? (fun item => item.id == sku) with
    | some it0 => exact goodCart_bumpFirst cart sku h
    | none =>
      have hall : ∀ x ∈ cart, (x.id == sku) = false := by
        intro x hx
        have := List.find?_eq_none.1 hcf x hx
        simpa using this
      constructor
      · intro x hx
        rcases List.mem_append.1 hx with hmem | hmem
        · exact h.1 x hmem
        · rcases List.mem_singleton.1 hmem with rfl
          norm_num
      · have hid : product.id = sku := by
          have := List.find?_some hinv
          simpa using this
        simp only [List.map_append, List.map_cons, List.map_nil]
        rw [List.nodup_append]
        refine ⟨h.2, List.nodup_singleton _, ?_⟩
        intro a ha hb
        simp only [List.mem_singleton] at hb
        obtain ⟨x, hx, rfl⟩ := List.mem_map.1 ha
        have := hall x hx
        rw [hb] at this
        simp [hid] at this

theorem goodCart_updateQuantity (cart : List CartItem) (sku action : String)
    (h : goodCart cart) : goodCart (updateQuantity cart sku action) := by
  unfold updateQuantity
  cases hcf : cart.find? (fun item => item.id == sku) with
  | none => exact h
  | some cartItem =>
    by_cases hinc : action = "increase"
    · simp only [hinc, if_true]
      exact goodCart_bumpFirst cart sku h
    · simp only [hinc, if_false]
      by_cases hdec : action = "decrease"
      · simp only [hdec, if_true]
        obtain ⟨l1, l2, he, hl1⟩ := find?_split _ cart cartItem hcf
        have hit : (cartItem.id == sku) = true := by
          have := List.find?_some hcf
          simpa using this
        have hdecf : decFirst cart sku = l1 ++ { cartItem with quantity := cartItem.quantity - 1 } :: l2 := by
          rw [he]
          exact decFirst_append l1 cartItem l2 sku hl1 hit
        by_cases hz : cartItem.quantity - 1 ≤ 0
        · simp only [hz, if_true]
          constructor
          · intro x hx
            have hx1 := List.mem_filter.1 hx
            rw [hdecf] at hx1
            obtain ⟨hmem, hkeep⟩ := hx1
            rcases List.mem_append.1 hmem with hm1 | hm2
            · exact h.1 x (he ▸ List.mem_append.2 (Or.inl hm1))
            · rcases List.mem_cons.1 hm2 with rfl | hm3
              · exfalso
                simp only [bne, hit, Bool.not_true] at hkeep
                cases hkeep
              · exact h.1 x (he ▸ List.mem_append.2 (Or.inr (List.mem_cons_of_mem _ hm3)))
          · have hsub : List.Sublist ((decFirst cart sku).filter (fun item => item.id != sku)) (decFirst cart sku) :=
              List.filter_sublist _
            have := (hsub.map (fun it => it.id)).nodup
            rw [decFirst_id_map] at this
            exact this h.2
        · simp only [hz, if_false]
          constructor
          · intro x hx
            rw [hdecf] at hx
            rcases List.mem_append.1 hx with hm1 | hm2
            · exact h.1 x (he ▸ List.mem_append.2 (Or.inl hm1))
            · rcases List.mem_cons.1 hm2 with rfl | hm3
              · simp only []
                omega
              · exact h.1 x (he ▸ List.mem_append.2 (Or.inr (List.mem_cons_of_mem _ hm3)))
          · rw [decFirst_id_map]
            exact h.2
      · simp only [hdec, if_false]
        exact h

theorem goodCart_runOps (ops : List CartOp) : goodCart (runOps ops) := by
  suffices h : ∀ cart : List CartItem, goodCart cart → goodCart (ops.foldl applyOp cart) from
    h [] ⟨by simp, by simp⟩
  induction ops with
  | nil => intro cart h; exact h
  | cons op rest ih =>
    intro cart h
    refine ih _ ?_
    cases op with
    | add inv sku => exact goodCart_addToCart inv cart sku h
    | adjust sku action => exact goodCart_updateQuantity cart sku action h

theorem find?_id_of_nodup (cart : List CartItem) (it : CartItem)
    (hnd : (cart.map (fun x => x.id)).Nodup) (hit : it ∈ cart) :
    cart.find? (fun x => x.id == it.id) = some it := by
  induction cart with
  | nil => cases hit
  | cons y ys ih =>
    have hnd2 : (∀ x ∈ ys, ¬ x.id = y.id) ∧ (ys.map (fun x => x.id)).Nodup := by
      simpa using hnd
    rcases List.mem_cons.1 hit with rfl | hmem
    · exact List.find?_cons_of_pos ys (by simp)
    · have hy : y.id ≠ it.id := fun he => hnd2.1 it hmem he.symm
      rw [List.find?_cons_of_neg ys (by simpa using hy)]
      exact ih hnd2.2 hmem

theorem decrease_removes (cart : List CartItem) (it : CartItem) (h : goodCart cart)
    (hit : it ∈ cart) (hq : it.quantity = 1) :
    (updateQuantity cart it.id "decrease").all (fun j => j.id != it.id) = true
    ∧ (updateQuantity cart it.id "decrease").length + 1 = cart.length := by
  have hfind := find?_id_of_nodup cart it h.2 hit
  obtain ⟨l1, l2, he, hl1⟩ := find?_split _ cart it hfind
  have hl2 : ∀ x ∈ l2, x.id ≠ it.id := by
    intro x hx he2
    have hnd := h.2
    rw [he] at hnd
    simp only [List.map_append, List.map_cons, List.nodup_append, List.nodup_cons] at hnd
    exact hnd.2.1.1 (he2 ▸ List.mem_map_of_mem (fun x => x.id) hx)
  have hresult : updateQuantity cart it.id "decrease"
      = (decFirst cart it.id).filter (fun item => item.id != it.id) := by
    simp only [updateQuantity, hfind, hq]
    rw [if_neg (by decide : ¬ ("decrease" = "increase")), if_pos trivial,
      if_pos (by norm_num : (1 : ℤ) - 1 ≤ 0)]
  have hdecf : decFirst cart it.id = l1 ++ { it with quantity := it.quantity - 1 } :: l2 := by
    rw [he]
    exact decFirst_append l1 it l2 it.id hl1 (by simp)
  have hfilter : (decFirst cart it.id).filter (fun item => item.id != it.id) = l1 ++ l2 := by
    rw [hdecf, List.filter_append, List.filter_cons]
    have hdrop : (({ it with quantity := it.quantity - 1 } : CartItem).id != it.id) = false := by
      simp [bne]
    rw [hdrop]
    simp only [Bool.false_eq_true, if_false]
    have h1 : l1.filter (fun item => item.id != it.id) = l1 :=
      List.filter_eq_self.2 (fun x hx => by simp [bne, hl1 x hx])
    have h2 : l2.filter (fun item => item.id != it.id) = l2 :=
      List.filter_eq_self.2 (fun x hx => by simp [bne, hl2 x hx])
    rw [h1, h2]
  rw [hresult, hfilter]
  constructor
  · rw [List.all_eq_true]
    intro x hx
    rcases List.mem_append.1 hx with hm | hm
    · simp [bne, hl1 x hm]
    · simp [bne, hl2 x hm]
  · rw [he]
    simp only [List.length_append, List.length_cons]
    omega

/-- C6: after any sequence of `addToCart` / `updateQuantity` operations from
the empty cart, every line has quantity ≥ 1, and decreasing a quantity-1 line
removes it: no line with that product id remains and the cart length drops by
exactly one. -/
theorem cart_invariant_decrease_removes (ops : List CartOp) (it : CartItem)
    (hit : it ∈ runOps ops) :
    1 ≤ it.quantity
    ∧ (it.quantity = 1 →
        (updateQuantity (runOps ops) it.id "decrease").all (fun j => j.id != it.id) = true
        ∧ (updateQuantity (runOps ops) it.id "decrease").length + 1 = (runOps ops).length) := by
  have hg := goodCart_runOps ops
  exact ⟨hg.1 it hit, fun hq => decrease_removes (runOps ops) it hg hit hq⟩

/-- Witness for C6: one add of `p1` yields a quantity-1 line, and decreasing
it empties the cart. -/
theorem cart_invariant_decrease_removes_witness :
    itemDemo ∈ runOps opsDemo
    ∧ itemDemo.quantity = 1
    ∧ 1 ≤ itemDemo.quantity
    ∧ (updateQuantity (runOps opsDemo) itemDemo.id "decrease").all
        (fun j => j.id != itemDemo.id) = true
    ∧ (updateQuantity (runOps opsDemo) itemDemo.id "decrease").length + 1
        = (runOps opsDemo).length := by
  have hrun : runOps opsDemo = [itemDemo] := rfl
  have hmem : itemDemo ∈ runOps opsDemo := by
    rw [hrun]
    exact List.mem_singleton_self _
  have h := cart_invariant_decrease_removes opsDemo itemDemo hmem
  exact ⟨hmem, rfl, h.1, (h.2 rfl).1, (h.2 rfl).2⟩

/-- C7: `addToCart` returns `false` and leaves the cart unchanged when the sku
has no product in the current inventory; with a catalog hit it bumps the
existing line by one (keeping its snapshot fields) when one exists, else
appends a fresh quantity-1 line; two adds of a fresh sku produce exactly one
line with quantity 2. -/
theorem addToCart_spec (inv : List Product) (cart : List CartItem) (sku : String) :
    (inv.find? (fun p => p.id == sku) = none → addToCart inv cart sku = (cart, false))
    ∧ (∀ product, inv.find? (fun p => p.id == sku) = some product →
        (cart.find? (fun item => item.id == sku) = none →
          addToCart inv cart sku
            = (cart ++ [({ toProduct := product, quantity := 1 } : CartItem)], true)
          ∧ (addToCart inv (cart ++ [({ toProduct := product, quantity := 1 } : CartItem)]) sku).1
              = cart ++ [({ toProduct := product, quantity := 2 } : CartItem)]
          ∧ ((cart ++ [({ toProduct := product, quantity := 2 } : CartItem)]).filter
              (fun item => item.id == sku)).length = 1)
        ∧ (∀ l1 it l2, cart = l1 ++ it :: l2 → (∀ x ∈ l1, (x.id == sku) = false) →
            (it.id == sku) = true →
            addToCart inv cart sku
              = (l1 ++ { it with quantity := it.quantity + 1 } :: l2, true))) := by
  constructor
  · intro hnone
    simp [addToCart, hnone]
  · intro product hsome
    have hpid : (product.id == sku) = true := by
      have := List.find?_some hsome
      simpa using this
    constructor
    · intro hcf
      have hall : ∀ x ∈ cart, (x.id == sku) = false := by
        intro x hx
        have := List.find?_eq_none.1 hcf x hx
        simpa using this
      refine ⟨by simp [addToCart, hsome, hcf], ?_, ?_⟩
      · have hfind2 : (cart ++ [({ toProduct := product, quantity := 1 } : CartItem)]).find?
            (fun item => item.id == sku)
            = some ({ toProduct := product, quantity := 1 } : CartItem) :=
          find?_of_split (fun item => item.id == sku) cart
            ({ toProduct := product, quantity := 1 } : CartItem) [] hall hpid
        have hbump : bumpFirst (cart ++ [({ toProduct := product, quantity := 1 } : CartItem)]) sku
            = cart ++ [({ toProduct := product, quantity := 2 } : CartItem)] := by
          have hb := bumpFirst_append cart ({ toProduct := product, quantity := 1 } : CartItem)
            [] sku hall hpid
          rw [hb]
          norm_num
        simp [addToCart, hsome, hfind2, hbump]
      · rw [List.filter_append]
        have h1 : cart.filter (fun item => item.id == sku) = [] := by
          rw [List.filter_eq_nil_iff]
          intro x hx
          simp [hall x hx]
        have h2 : ([({ toProduct := product, quantity := 2 } : CartItem)]).filter
            (fun item => item.id == sku)
            = [({ toProduct := product, quantity := 2 } : CartItem)] := by
          simp [List.filter_cons, hpid]
        rw [h1, h2]
        rfl
    · intro l1 it l2 he hl1 hit
      have hfind : cart.find? (fun item => item.id == sku) = some it := by
        rw [he]
        exact find?_of_split (fun item => item.id == sku) l1 it l2 hl1 hit
      have hbump : bumpFirst cart sku = l1 ++ { it with quantity := it.quantity + 1 } :: l2 := by
        rw [he]
        exact bumpFirst_append l1 it l2 sku hl1 hit
      simp [addToCart, hsome, hfind, hbump]

/-- Witness for C7: adding `p1` twice to the empty cart against `invDemo`
yields exactly one line with quantity 2. -/
theorem addToCart_spec_witness :
    addToCart invDemo [] "p1" = ([({ toProduct := prodDemo, quantity := 1 } : CartItem)], true)
    ∧ (addToCart invDemo (([] : List CartItem) ++ [({ toProduct := prodDemo, quantity := 1 } : CartItem)]) "p1").1
        = ([] : List CartItem) ++ [({ toProduct := prodDemo, quantity := 2 } : CartItem)]
    ∧ ((([] : List CartItem) ++ [({ toProduct := prodDemo, quantity := 2 } : CartItem)]).filter
        (fun item => item.id == "p1")).length = 1 := by
  have hsome : invDemo.find? (fun p => p.id == "p1") = some prodDemo := rfl
  have hnone : ([] : List CartItem).find? (fun item => item.id == "p1") = none := rfl
  exact ((addToCart_spec invDemo [] "p1").2 prodDemo hsome).1 hnone

/-- C10: an action string other than `increase` and `decrease` leaves the
cart completely unchanged. -/
theorem updateQuantity_unknown_action (cart : List CartItem) (sku action : String)
    (h1 : ¬ action = "increase") (h2 : ¬ action = "decrease") :
    updateQuantity cart sku action = cart := by
  unfold updateQuantity
  cases hcf : cart.find? (fun item => item.id == sku) with
  | none => rfl
  | some cartItem => simp [h1, h2]

/-- Witness for C10: the action `remove` is a no-op on a one-line cart. -/
theorem updateQuantity_unknown_action_witness :
    ¬ "remove" = "increase" ∧ ¬ "remove" = "decrease"
    ∧ updateQuantity [itemDemo] "p1" "remove" = [itemDemo] :=
  ⟨by decide, by decide,
    updateQuantity_unknown_action [itemDemo] "p1" "remove" (by decide) (by decide)⟩

theorem digit_beq_false (c x : Char) (h : c.isDigit = true) (hx : x.isDigit = false) :
    (c == x) = false := by
  rw [beq_eq_false_iff_ne]
  intro he
  rw [he, hx] at h
  exact Bool.false_ne_true h

theorem takeWhile_all (p : Char → Bool) (l : List Char) (h : ∀ c ∈ l, p c = true) :
    l.takeWhile p = l := by
  induction l with
  | nil => rfl
  | cons c cs ih =>
    rw [List.takeWhile_cons, if_pos (h c (List.mem_cons_self c cs))]
    rw [ih (fun x hx => h x (List.mem_cons_of_mem c hx))]

theorem dropWhile_all (p : Char → Bool) (l : List Char) (h : ∀ c ∈ l, p c = true) :
    l.dropWhile p = [] := by
  induction l with
  | nil => rfl
  | cons c cs ih =>
    rw [List.dropWhile_cons, if_pos (h c (List.mem_cons_self c cs))]
    exact ih (fun x hx => h x (List.mem_cons_of_mem c hx))

theorem jsParseFloat_digits (s : String) (hne : s.toList ≠ [])
    (hall : ∀ c ∈ s.toList, c.isDigit = true) :
    jsParseFloat s = some ((digitsVal s.toList : ℚ)) := by
  obtain ⟨c, cs, hcons⟩ := List.exists_cons_of_ne_nil hne
  have hc : c.isDigit = true := hall c (by rw [hcons]; exact List.mem_cons_self c cs)
  have hdw : s.toList.dropWhile
      (fun c => c == ' ' || c == '\t' || c == '\n' || c == '\r') = s.toList := by
    rw [hcons, List.dropWhile_cons, if_neg]
    simp [digit_beq_false c ' ' hc (by decide), digit_beq_false c '\t' hc (by decide),
      digit_beq_false c '\n' hc (by decide), digit_beq_false c '\r' hc (by decide)]
  have hhead : s.toList.headD ' ' = c := by rw [hcons]; rfl
  have hminus : (s.toList.headD ' ' == '-') = false := by
    rw [hhead]; exact digit_beq_false c '-' hc (by decide)
  have hplus : (s.toList.headD ' ' == '+') = false := by
    rw [hhead]; exact digit_beq_false c '+' hc (by decide)
  have htw : s.toList.takeWhile Char.isDigit = s.toList := takeWhile_all _ _ hall
  have hdw2 : s.toList.dropWhile Char.isDigit = [] := dropWhile_all _ _ hall
  have hempty : s.toList.isEmpty = false := by rw [hcons]; rfl
  simp only [String.toList] at hdw hminus hplus htw hdw2 hempty
  simp only [jsParseFloat, String.toList, hdw, hminus, hplus, htw, hdw2, hempty]
  norm_num [htw, hdw2, hempty, fracVal, digitsVal]

/-- C8: every product returned by `parseCSV` has a non-empty id and a
non-empty name (rows lacking either are dropped), and on the concrete sample
the malformed `A2` row (id present, name missing) is dropped while the
well-formed rows parse normally. -/
theorem parseCSV_drops_incomplete_rows (csvText : String) :
    (∀ p ∈ parseCSV csvText, ¬ p.id = "" ∧ ¬ p.name = "")
    ∧ parseCSV csvSample = [prodWidget, prodGadget] := by
  constructor
  · intro p hp
    simp only [parseCSV, List.mem_filterMap] at hp
    obtain ⟨line, _, hline⟩ := hp
    split at hline
    · split at hline
      · rename_i hok
        rw [Option.some.injEq] at hline
        subst hline
        unfold defaultImage
        split
        · exact hok
        · exact hok
      · cases hline
    · cases hline
  · have hd10 : digitsVal "10".toList = 10 := rfl
    have hd30 : digitsVal "30".toList = 30 := rfl
    have h10 : floatOr0 (jsParseFloat "10") = 10 := by
      rw [jsParseFloat_digits "10" (by decide) (by decide), hd10]
      show ((10 : ℕ) : ℚ) = 10
      norm_num
    have h30 : floatOr0 (jsParseFloat "30") = 30 := by
      rw [jsParseFloat_digits "30" (by decide) (by decide), hd30]
      show ((30 : ℕ) : ℚ) = 30
      norm_num
    have hstep : parseCSV csvSample
        = [{ prodWidget with price := floatOr0 (jsParseFloat "10") },
           { prodGadget with price := floatOr0 (jsParseFloat "30") }] := rfl
    rw [hstep, h10, h30]
    rfl

/-- Counterexample to C3 as stated: with the structured API configured and
failing, `getInventory` answers the static fallback directly even though the
remote flat-file source is reachable and would parse to a different (one
product) list — the flat-file sources are never attempted. -/
theorem getInventory_skips_flat_files :
    getInventory cfgRemote envApiDown = Except.ok getFallbackInventory
    ∧ fetchFromCSV envApiDown = Except.ok (parseCSV csvRemote)
    ∧ parseCSV csvRemote ≠ getFallbackInventory := by
  refine ⟨rfl, rfl, ?_⟩
  intro h
  have hlen := congrArg List.length h
  rw [show (parseCSV csvRemote).length = 1 from rfl,
    show getFallbackInventory.length = 10 from rfl] at hlen
  exact absurd hlen (by decide)

/-- C3 (amended): `getInventory` never raises; when the structured API is
configured, its failure falls directly to the non-empty built-in static list
(the flat-file sources are not attempted); when it is not configured, the
chain is remote flat file → local flat file → static fallback. -/
theorem getInventory_fallback_chain (cfg : Config) (env : FetchEnv) :
    (∃ l, getInventory cfg env = Except.ok l)
    ∧ (usesSheets cfg = true → ∀ e, env.googleSheets = Except.error e →
        getInventory cfg env = Except.ok getFallbackInventory)
    ∧ (usesSheets cfg = false →
        getInventory cfg env
          = Except.ok (match env.remoteCSV with
            | Except.ok t => parseCSV t
            | Except.error _ =>
              match env.localCSV with
              | Except.ok t => parseCSV t
              | Except.error _ => getFallbackInventory))
    ∧ getFallbackInventory ≠ [] := by
  refine ⟨?_, ?_, ?_, by decide⟩
  · cases hx : (if usesSheets cfg then fetchFromGoogleSheets env else fetchFromCSV env) with
    | ok l => exact ⟨l, by unfold getInventory; rw [hx]⟩
    | error e => exact ⟨getFallbackInventory, by unfold getInventory; rw [hx]⟩
  · intro hu e he
    unfold getInventory
    rw [if_pos hu, show fetchFromGoogleSheets env = Except.error e from by
      unfold fetchFromGoogleSheets; rw [he]]
  · intro hu
    unfold getInventory
    rw [if_neg (by simp [hu])]
    unfold fetchFromCSV
    cases env.remoteCSV with
    | ok t => rfl
    | error e1 =>
      cases env.localCSV with
      | ok t => rfl
      | error e2 => rfl

/-- Witness for the amended C3: the concrete configured-and-failing
environment lands on the static fallback. -/
theorem getInventory_fallback_chain_witness :
    usesSheets cfgRemote = true
    ∧ getInventory cfgRemote envApiDown = Except.ok getFallbackInventory :=
  ⟨by decide,
    (getInventory_fallback_chain cfgRemote envApiDown).2.1 (by decide)
      "HTTP error! status: 500" rfl⟩

/-- C4: `checkout` fails with the cart precondition before any network
attempt on an empty cart, with the configuration error before any network
attempt when the endpoint URL is empty, surfaces every failure (network
error, non-2xx status, body-parse error, `success: false`) as an error with
the best-available message, and leaves the cart unchanged on every
failure. -/
theorem checkout_failure_contract (cfg : Config) (cart : List CartItem)
    (env : SubmitOutcome) (now : String) :
    (cart = [] → checkout cfg cart env now
        = { result := Except.error "Cart is empty", newCart := cart, sent := none })
    ∧ (cart ≠ [] → cfg.APPS_SCRIPT_URL = "" → checkout cfg cart env now
        = { result := Except.error "Apps Script URL not configured",
            newCart := cart, sent := none })
    ∧ (∀ e, (checkout cfg cart env now).result = Except.error e →
        (checkout cfg cart env now).newCart = cart)
    ∧ (cart ≠ [] → cfg.APPS_SCRIPT_URL ≠ "" →
        (∀ msg, env = SubmitOutcome.netError msg →
          (checkout cfg cart env now).result = Except.error msg)
        ∧ (∀ status body, env = SubmitOutcome.httpResponse false status body →
            (checkout cfg cart env now).result
              = Except.error ("HTTP error! status: " ++ toString status))
        ∧ (∀ status msg, env = SubmitOutcome.httpResponse true status (Except.error msg) →
            (checkout cfg cart env now).result = Except.error msg)
        ∧ (∀ status body, env = SubmitOutcome.httpResponse true status (Except.ok body) →
            body.success = false →
            (checkout cfg cart env now).result
              = Except.error (jsOrString body.error "Checkout failed"))) := by
  by_cases h1 : cart.length = 0
  · have hnil : cart = [] := List.length_eq_zero.1 h1
    have hc : checkout cfg cart env now
        = { result := Except.error "Cart is empty", newCart := cart, sent := none } := by
      unfold checkout
      rw [if_pos h1]
    refine ⟨fun _ => hc, fun hne _ => absurd hnil hne, fun e _ => by rw [hc],
      fun hne _ => absurd hnil hne⟩
  · have hne : cart ≠ [] := fun hnil => h1 (by rw [hnil]; rfl)
    by_cases h2 : cfg.APPS_SCRIPT_URL = ""
    · have hc : checkout cfg cart env now
          = { result := Except.error "Apps Script URL not configured",
              newCart := cart, sent := none } := by
        unfold checkout
        rw [if_neg h1, if_pos h2]
      exact ⟨fun hnil => absurd hnil hne, fun _ _ => hc, fun e _ => by rw [hc],
        fun _ hu => absurd h2 hu⟩
    · refine ⟨fun hnil => absurd hnil hne, fun _ hu => absurd hu h2, ?_, ?_⟩
      · intro e he
        unfold checkout at he ⊢
        rw [if_neg h1, if_neg h2] at he ⊢
        cases env with
        | netError msg => rfl
        | httpResponse ok status body =>
          cases ok with
          | false => rfl
          | true =>
            cases body with
            | error msg => rfl
            | ok result =>
              by_cases hs : result.success = true
              · simp only [hs, if_true] at he
                simp at he
              · simp only [Bool.not_eq_true] at hs
                simp only [hs] at he ⊢
                rfl
      · intro _ _
        refine ⟨?_, ?_, ?_, ?_⟩
        · intro msg henv
          subst henv
          unfold checkout
          rw [if_neg h1, if_neg h2]
        · intro status body henv
          subst henv
          unfold checkout
          rw [if_neg h1, if_neg h2]
          rfl
        · intro status msg henv
          subst henv
          unfold checkout
          rw [if_neg h1, if_neg h2]
          rfl
        · intro status body henv hs
          subst henv
          unfold checkout
          rw [if_neg h1, if_neg h2]
          simp only [hs]
          rfl

/-- Witness for C4: the empty cart fails with the precondition error and no
transaction is sent. -/
theorem checkout_failure_contract_witness :
    ([] : List CartItem) = []
    ∧ checkout cfgSubmit [] envSuccess "2026-01-01T00:00:00.000Z"
        = { result := Except.error "Cart is empty", newCart := [], sent := none } :=
  ⟨rfl, (checkout_failure_contract cfgSubmit [] envSuccess "2026-01-01T00:00:00.000Z").1 rfl⟩

/-- Counterexample to C5 as stated: on a successful submission `checkout`
itself empties the cart store (`this.cart = []` inside the success branch),
rather than leaving the clear to the caller. -/
theorem checkout_clears_cart_itself :
    (checkout cfgSubmit cartScenario envSuccess "t").newCart = []
    ∧ cartScenario ≠ []
    ∧ (checkout cfgSubmit cartScenario envSuccess "t").result
        = Except.ok { success := true } := by
  refine ⟨rfl, by decide, rfl⟩

/-- C5 (amended): whenever `checkout` returns successfully, the cart store it
leaves behind is empty — the submitter clears the cart itself. -/
theorem checkout_success_clears_cart (cfg : Config) (cart : List CartItem)
    (env : SubmitOutcome) (now : String) (body : RemoteBody)
    (h : (checkout cfg cart env now).result = Except.ok body) :
    (checkout cfg cart env now).newCart = [] := by
  unfold checkout at h ⊢
  by_cases h1 : cart.length = 0
  · rw [if_pos h1] at h
    simp at h
  · rw [if_neg h1] at h ⊢
    by_cases h2 : cfg.APPS_SCRIPT_URL = ""
    · rw [if_pos h2] at h
      simp at h
    · rw [if_neg h2] at h ⊢
      cases env with
      | netError msg => simp at h
      | httpResponse ok status body2 =>
        cases ok with
        | false => simp at h
        | true =>
          cases body2 with
          | error msg => simp at h
          | ok result =>
            by_cases hs : result.success = true
            · simp only [hs, if_true]
              rfl
            · simp only [Bool.not_eq_true] at hs
              simp only [hs] at h
              simp at h

/-- Witness for the amended C5: the concrete successful submission leaves an
empty cart. -/
theorem checkout_success_clears_cart_witness :
    (checkout cfgSubmit cartScenario envSuccess "t").result = Except.ok { success := true }
    ∧ (checkout cfgSubmit cartScenario envSuccess "t").newCart = [] :=
  ⟨rfl, checkout_success_clears_cart cfgSubmit cartScenario envSuccess "t"
    { success := true } rfl⟩

/-- Counterexample to C9 as stated: after searching `apple`, a second search
for `banana` runs over the first search's filtered result (renderProducts
overwrote `this.inventory`), so it returns the empty list instead of the
banana product that selecting from the loaded catalog would give. -/
theorem second_search_not_from_catalog :
    (searchProducts (searchProducts stAB "apple") "banana").inventory
        ≠ stAB.inventory.filter (fun product =>
            jsIncludes (jsLower product.name) (jsLower "banana")
            || jsIncludes (jsLower product.category) (jsLower "banana"))
    ∧ (searchProducts (searchProducts stAB "apple") "banana").inventory = []
    ∧ stAB.inventory.filter (fun product =>
        jsIncludes (jsLower product.name) (jsLower "banana")
        || jsIncludes (jsLower product.category) (jsLower "banana")) = [prodBanana] := by
  have h2 : (searchProducts (searchProducts stAB "apple") "banana").inventory = [] := rfl
  have h3 : stAB.inventory.filter (fun product =>
      jsIncludes (jsLower product.name) (jsLower "banana")
      || jsIncludes (jsLower product.category) (jsLower "banana")) = [prodBanana] := rfl
  refine ⟨fun h => ?_, h2, h3⟩
  rw [h2, h3] at h
  cases h

/-- C9 (amended): `searchProducts` and `filterByCategory` never change the
cart and select by name/category match from the current `this.inventory`;
because `renderProducts` replaces `this.inventory` with its argument, a
second invocation selects from the previous invocation's filtered result,
not from the originally loaded catalog. -/
theorem search_filter_state (st : ServiceState) (q1 q2 c : String) :
    (searchProducts st q1).cart = st.cart
    ∧ (filterByCategory st c).cart = st.cart
    ∧ (searchProducts st q1).inventory
        = st.inventory.filter (fun product =>
            jsIncludes (jsLower product.name) (jsLower q1)
            || jsIncludes (jsLower product.category) (jsLower q1))
    ∧ (filterByCategory st c).inventory
        = st.inventory.filter (fun product => product.category == c)
    ∧ (searchProducts (searchProducts st q1) q2).inventory
        = (st.inventory.filter (fun product =>
            jsIncludes (jsLower product.name) (jsLower q1)
            || jsIncludes (jsLower product.category) (jsLower q1))).filter
              (fun product =>
                jsIncludes (jsLower product.name) (jsLower q2)
                || jsIncludes (jsLower product.category) (jsLower q2)) :=
  ⟨rfl, rfl, rfl, rfl, rfl⟩

/-- Witness for C8: a product that survives the sample parse indeed has a
non-empty id and name. -/
theorem parseCSV_drops_incomplete_rows_witness :
    prodWidget ∈ parseCSV csvSample
    ∧ ¬ prodWidget.id = "" ∧ ¬ prodWidget.name = "" := by
  have hmem : prodWidget ∈ parseCSV csvSample := by
    rw [(parseCSV_drops_incomplete_rows csvSample).2]
    exact List.mem_cons_self _ _
  have h := (parseCSV_drops_incomplete_rows csvSample).1 prodWidget hmem
  exact ⟨hmem, h.1, h.2⟩
